import Mathlib

/-!
Verification of the real-time chat and call-signaling hub of the
GlobalCreoleSociety backend.  The definitions below are a shallow
embedding of `chat/models.py`, `chat/consumers.py` and
`chat/middleware.py`: Django model methods become pure record
transformers, the database becomes an explicit list of records passed
through each handler, timestamps are whole seconds (`Int`), and each
consumer handler returns the list of events it emits together with the
updated database.
-/

namespace GCS

/-- An outbound effect of a handler: an event sent back on the
originating connection (`toSelf`) or a fan-out to a named group
(`toGroup`).  Event payloads are abbreviated to their `type`
discriminator where the claims only concern which events go where. -/
inductive Sent where
  | toSelf (etype : String)
  | toGroup (group : String) (etype : String)
deriving DecidableEq, Repr

/-! ## Data model: chat/models.py -/

/-- The `status` column of `Call` (`CALL_STATUS_CHOICES`). -/
inductive CallStatus where
  | initiated
  | ringing
  | accepted
  | rejected
  | missed
  | ended
  | failed
deriving DecidableEq, Repr

/-- The `Call` model: conversation, caller, receiver, call type, status,
timestamps (whole seconds) and duration.  `answered_at` and `ended_at`
are nullable, `duration` defaults to 0. -/
structure Call where
  id : Nat
  conversation : Nat
  caller : Nat
  receiver : Nat
  call_type : String
  status : CallStatus
  started_at : Int
  answered_at : Option Int
  ended_at : Option Int
  duration : Int
deriving DecidableEq, Repr

/-- `Call.mark_accepted`: unconditionally set status to accepted and
stamp `answered_at`. -/
def Call.mark_accepted (c : Call) (now : Int) : Call :=
  { c with status := .accepted, answered_at := some now }

/-- `Call.mark_ended`: set status to ended, stamp `ended_at`, and when
`answered_at` is set recompute `duration` as the difference in whole
seconds; otherwise `duration` is left as it was. -/
def Call.mark_ended (c : Call) (now : Int) : Call :=
  match c.answered_at with
  | some a => { c with status := .ended, ended_at := some now, duration := now - a }
  | none => { c with status := .ended, ended_at := some now }

/-- `Call.mark_rejected`: unconditionally set status to rejected and
stamp `ended_at`. -/
def Call.mark_rejected (c : Call) (now : Int) : Call :=
  { c with status := .rejected, ended_at := some now }

/-- `Call.mark_missed`: unconditionally set status to missed and stamp
`ended_at`. -/
def Call.mark_missed (c : Call) (now : Int) : Call :=
  { c with status := .missed, ended_at := some now }

/-- `Call.objects.get(id=call_id)`: look a call up by primary key. -/
def findCall (db : List Call) (call_id : Nat) : Option Call :=
  db.find? (fun c => c.id == call_id)

/-- Replace the stored row with primary key `call_id` by `c`
(the effect of `call.save()` after mutating a fetched row). -/
def saveCall (db : List Call) (call_id : Nat) (c : Call) : List Call :=
  db.map (fun x => if x.id == call_id then c else x)

/-- The `Message` model: conversation, sender, content, read flag and
nullable read timestamp. -/
structure Message where
  id : Nat
  conversation : Nat
  sender : Nat
  content : String
  is_read : Bool
  read_at : Option Int
deriving DecidableEq, Repr

/-- `Message.mark_as_read`: when the message is unread, set `is_read`
and stamp `read_at`; otherwise do nothing. -/
def Message.mark_as_read (m : Message) (now : Int) : Message :=
  if m.is_read then m else { m with is_read := true, read_at := some now }

/-- `Message.objects.get(id=message_id)`: look a message up by primary
key. -/
def findMessage (db : List Message) (message_id : Nat) : Option Message :=
  db.find? (fun m => m.id == message_id)

/-- Replace the stored row with primary key `message_id` by `m`. -/
def saveMessage (db : List Message) (message_id : Nat) (m : Message) : List Message :=
  db.map (fun x => if x.id == message_id then m else x)

/-! ## CallConsumer: chat/consumers.py -/

namespace CallConsumer

/-- `CallConsumer.create_call`: a fresh `Call` row in status ringing,
with `duration` at its default 0 and no answer or end timestamp. -/
def create_call (new_id conversation caller receiver : Nat)
    (call_type : String) (now : Int) : Call :=
  { id := new_id, conversation := conversation, caller := caller,
    receiver := receiver, call_type := call_type, status := .ringing,
    started_at := now, answered_at := none, ended_at := none,
    duration := 0 }

/-- `CallConsumer.accept_call`: fetch the call and apply
`mark_accepted`; `none` when the call id does not exist
(`Call.DoesNotExist`). -/
def accept_call (db : List Call) (call_id : Nat) (now : Int) :
    Option (Call × List Call) :=
  match findCall db call_id with
  | none => none
  | some c =>
      let c' := c.mark_accepted now
      some (c', saveCall db call_id c')

/-- `CallConsumer.reject_call`: fetch the call and apply
`mark_rejected`; `none` when the call id does not exist. -/
def reject_call (db : List Call) (call_id : Nat) (now : Int) :
    Option (Call × List Call) :=
  match findCall db call_id with
  | none => none
  | some c =>
      let c' := c.mark_rejected now
      some (c', saveCall db call_id c')

/-- `CallConsumer.end_call`: fetch the call and apply `mark_ended`;
`none` when the call id does not exist. -/
def end_call (db : List Call) (call_id : Nat) (now : Int) :
    Option (Call × List Call) :=
  match findCall db call_id with
  | none => none
  | some c =>
      let c' := c.mark_ended now
      some (c', saveCall db call_id c')

/-- `CallConsumer.handle_call_accept`: missing `call_id` field yields an
error reply; an unknown call id yields an error reply; on success the
`call_accepted` event is fanned out to the caller's personal call
group. -/
def handle_call_accept (db : List Call) (call_id : Option Nat) (now : Int) :
    List Sent × List Call :=
  match call_id with
  | none => ([Sent.toSelf "error"], db)
  | some i =>
      match accept_call db i now with
      | some (c, db') =>
          ([Sent.toGroup ("user_call_" ++ toString c.caller) "call_accepted"], db')
      | none => ([Sent.toSelf "error"], db)

/-- `CallConsumer.handle_call_reject`: missing `call_id` field yields an
error reply; on success the `call_rejected` event is fanned out to the
caller's personal call group; an unknown call id produces no output at
all (the code has no else branch after `reject_call`). -/
def handle_call_reject (db : List Call) (call_id : Option Nat) (now : Int) :
    List Sent × List Call :=
  match call_id with
  | none => ([Sent.toSelf "error"], db)
  | some i =>
      match reject_call db i now with
      | some (c, db') =>
          ([Sent.toGroup ("user_call_" ++ toString c.caller) "call_rejected"], db')
      | none => ([], db)

/-- `CallConsumer.handle_call_end`: missing `call_id` field yields an
error reply; on success the `call_ended` event is fanned out to the
whole conversation call group `call_<conversation_id>`; an unknown call
id produces no output at all (no else branch after `end_call`). -/
def handle_call_end (db : List Call) (call_id : Option Nat)
    (conversation_id : String) (now : Int) : List Sent × List Call :=
  match call_id with
  | none => ([Sent.toSelf "error"], db)
  | some i =>
      match end_call db i now with
      | some (_, db') =>
          ([Sent.toGroup ("call_" ++ conversation_id) "call_ended"], db')
      | none => ([], db)

end CallConsumer

/-! ## ChatConsumer: chat/consumers.py -/

/-- A delivered `typing_indicator` payload (`user_id`, `is_typing`);
the global variant also carries `username`. -/
structure TypingEvent where
  user_id : Nat
  is_typing : Bool
deriving DecidableEq, Repr

namespace ChatConsumer

/-- `ChatConsumer.mark_message_read`: fetch the message by id; when it
exists and its sender differs from the caller, apply `mark_as_read`;
when it does not exist (`Message.DoesNotExist`) or the caller is the
sender, do nothing. -/
def mark_message_read (db : List Message) (caller : Nat) (message_id : Nat)
    (now : Int) : List Message :=
  match findMessage db message_id with
  | none => db
  | some m =>
      if m.sender == caller then db
      else saveMessage db message_id (m.mark_as_read now)

/-- The `mark_read` branch of `ChatConsumer.receive`: when the
`message_id` field is present, call `mark_message_read` and then,
unconditionally, fan a `message_read` event out to the conversation
group; when the field is absent, do nothing at all. -/
def receive_mark_read (db : List Message) (caller : Nat)
    (conversation_group_name : String) (message_id : Option Nat) (now : Int) :
    List Sent × List Message :=
  match message_id with
  | none => ([], db)
  | some i =>
      ([Sent.toGroup conversation_group_name "message_read"],
       mark_message_read db caller i now)

/-- `ChatConsumer.typing_indicator` (group event handler): each member
connection delivers the indicator to its client unless its own user id
equals the event's originating `user_id`. -/
def typing_indicator (self_user_id : Nat) (event : TypingEvent) :
    Option TypingEvent :=
  if self_user_id == event.user_id then none else some event

/-- Fan-out of one typing event to every member of the conversation
group: each member connection runs `typing_indicator`; the result pairs
each member user id with the payload actually delivered to it. -/
def deliver_typing (members : List Nat) (event : TypingEvent) :
    List (Nat × TypingEvent) :=
  members.filterMap (fun u => (typing_indicator u event).map (fun e => (u, e)))

/-- `ChatConsumer.connect` outcome: whether the socket was accepted or
closed, which groups were joined, and what was sent on it.  The code
closes before joining any group when the user is unauthenticated or not
a participant of the conversation. -/
structure ConnectResult where
  accepted : Bool
  closed : Bool
  groups : List String
  sent : List Sent
deriving DecidableEq, Repr

/-- The outcome of a rejected handshake: closed, nothing joined,
nothing sent. -/
def closedResult : ConnectResult :=
  { accepted := false, closed := true, groups := [], sent := [] }

/-- `ChatConsumer.connect`: close when unauthenticated or not a
participant; otherwise join the conversation group and the user's
personal group, accept, and send `connection_established`. -/
def connect (is_authenticated is_participant : Bool)
    (conversation_id : String) (user_id : Nat) : ConnectResult :=
  if !is_authenticated then closedResult
  else if !is_participant then closedResult
  else
    { accepted := true, closed := false,
      groups := ["chat_" ++ conversation_id, "user_" ++ toString user_id],
      sent := [Sent.toSelf "connection_established"] }

end ChatConsumer

/-! ## GlobalChatConsumer: chat/consumers.py -/

/-- A `user_joined` / `user_left` / global `typing_indicator` payload:
event type, originating user id, username. -/
structure UserEvent where
  etype : String
  user_id : Nat
  username : String
deriving DecidableEq, Repr

namespace GlobalChatConsumer

/-- `GlobalChatConsumer.connect`: close (code 4001) when
unauthenticated; otherwise join `global_chat`, accept, send
`connection_established`, then broadcast a `user_joined` event carrying
the user's id and profile name to the `global_chat` group. -/
def connect (is_authenticated : Bool) (user_id : Nat) (profile_name : String) :
    ChatConsumer.ConnectResult × List UserEvent :=
  if !is_authenticated then (ChatConsumer.closedResult, [])
  else
    ({ accepted := true, closed := false,
       groups := ["global_chat"],
       sent := [Sent.toSelf "connection_established"] },
     [{ etype := "user_joined", user_id := user_id, username := profile_name }])

/-- `GlobalChatConsumer.disconnect`: when the user is authenticated,
broadcast a `user_left` event carrying the user's id and profile name
to the `global_chat` group; then leave the group. -/
def disconnect (is_authenticated : Bool) (user_id : Nat)
    (profile_name : String) : List UserEvent :=
  if is_authenticated then
    [{ etype := "user_left", user_id := user_id, username := profile_name }]
  else []

/-- `GlobalChatConsumer.user_joined` (group event handler): deliver the
notification unless the member's own user id equals the joiner's. -/
def user_joined (self_user_id : Nat) (event : UserEvent) : Option UserEvent :=
  if self_user_id == event.user_id then none else some event

/-- `GlobalChatConsumer.user_left` (group event handler): deliver the
notification unless the member's own user id equals the leaver's. -/
def user_left (self_user_id : Nat) (event : UserEvent) : Option UserEvent :=
  if self_user_id == event.user_id then none else some event

/-- `GlobalChatConsumer.typing_indicator` (group event handler): deliver
the indicator (with `user_id`, `username`, `is_typing`) unless the
member's own user id equals the originator's. -/
def typing_indicator (self_user_id : Nat) (event : UserEvent)
    (is_typing : Bool) : Option (UserEvent × Bool) :=
  if self_user_id == event.user_id then none else some (event, is_typing)

/-- Fan-out of one global typing event to every member of the
`global_chat` group. -/
def deliver_typing (members : List Nat) (event : UserEvent)
    (is_typing : Bool) : List (Nat × UserEvent × Bool) :=
  members.filterMap
    (fun u => (typing_indicator u event is_typing).map (fun e => (u, e)))

end GlobalChatConsumer

namespace CallConsumer

/-- `CallConsumer.connect`: close when unauthenticated; for a
non-global conversation id also close when the caller is not a
participant; otherwise join the conversation call group (skipped in
global-listener mode) and the user's personal call group, accept, and
send `connection_established`. -/
def connect (is_authenticated is_participant : Bool)
    (conversation_id : String) (user_id : Nat) : ChatConsumer.ConnectResult :=
  let is_global := conversation_id == "global"
  if !is_authenticated then ChatConsumer.closedResult
  else if !is_global && !is_participant then ChatConsumer.closedResult
  else
    { accepted := true, closed := false,
      groups :=
        (if is_global then [] else ["call_" ++ conversation_id]) ++
          ["user_call_" ++ toString user_id],
      sent := [Sent.toSelf "connection_established"] }

end CallConsumer

/-! ## JWTAuthMiddleware: chat/middleware.py -/

namespace JWTAuthMiddleware

/-- The pieces of the connection scope that the middleware consults:
the parsed query string (blank values already dropped, as `parse_qs`
does by default), and the raw `authorization` and `cookie` headers
(empty string when absent). -/
structure Scope where
  query_params : List (String × String)
  authorization : String
  cookie : String
deriving DecidableEq, Repr

/-- `query_params.get('token', [None])[0]` after `parse_qs`: the first
value listed for key `token`.  `parse_qs` drops blank values, so a
returned value is never the empty string. -/
def getQueryToken (qp : List (String × String)) : Option String :=
  (qp.find? (fun kv => kv.1 == "token" && kv.2 != "")).map (fun kv => kv.2)

/-- The header branch: when the `authorization` header starts with
the string Bearer followed by a space, the rest of the header
(possibly empty). -/
def bearerToken (auth : String) : Option String :=
  if auth.startsWith "Bearer " then some (auth.drop 7) else none

/-- The cookie-parsing loop: split the header on semicolons, keep the
fragments containing an equals sign, strip each and split it at the
first equals sign into key and value. -/
def parseCookies (s : String) : List (String × String) :=
  (s.splitOn ";").filterMap (fun c =>
    match c.trim.splitOn "=" with
    | [] => none
    | [_] => none
    | k :: rest => some (k, String.intercalate "=" rest))

/-- `cookie_dict.get(name)` where the dict was filled in list order:
the value of the last matching fragment. -/
def cookieGet (l : List (String × String)) (k : String) : Option String :=
  (l.reverse.find? (fun kv => kv.1 == k)).map (fun kv => kv.2)

/-- The token-extraction sequence of `JWTAuthMiddleware.__call__`:
query-string parameter, then Bearer header, then `access_token` cookie,
each later source consulted only while the token so far is falsy
(absent or empty).  The result is the extracted token, empty string
meaning none. -/
def extract_token (s : Scope) : String :=
  let token :=
    match getQueryToken s.query_params with
    | some t => t
    | none => ""
  let token :=
    if token == "" then
      match bearerToken s.authorization with
      | some t => t
      | none => ""
    else token
  if token == "" then
    match cookieGet (parseCookies s.cookie) "access_token" with
    | some t => t
    | none => ""
  else token

/-- The tail of `JWTAuthMiddleware.__call__` composed with
`get_user_from_token`: when a token was extracted, resolve it through
the validation function (`none` models `AnonymousUser`, returned on
`TokenError` or a missing user); otherwise resolve directly to
anonymous.  Total by construction: it never raises. -/
def authenticate (validate : String → Option Nat) (s : Scope) : Option Nat :=
  let token := extract_token s
  if token == "" then none else validate token

end JWTAuthMiddleware

/-- Modelled from the spec: the outbound event envelope of §6, the
complete list of outbound event `type` discriminators the spec
declares.  Used to compare the code's emitted event types against the
spec's envelope. -/
def specOutboundEventTypes : List String :=
  ["connection_established", "chat_message", "message_read",
   "typing_indicator", "conversation_update", "incoming_call",
   "call_accepted", "call_rejected", "call_ended", "webrtc_offer",
   "webrtc_answer", "webrtc_ice_candidate", "pong", "error"]

/-! ## Concrete fixtures used by counterexamples and witnesses -/

/-- A concrete `Call` row in the terminal status rejected. -/
def rejectedCall : Call :=
  { id := 1, conversation := 10, caller := 2, receiver := 3,
    call_type := "audio", status := .rejected, started_at := 0,
    answered_at := none, ended_at := some 5, duration := 0 }

/-- A concrete accepted `Call` row answered at second 10. -/
def answeredCall : Call :=
  { id := 4, conversation := 10, caller := 2, receiver := 3,
    call_type := "video", status := .accepted, started_at := 0,
    answered_at := some 10, ended_at := none, duration := 0 }

/-- A concrete unread `Message` row whose sender is user 1. -/
def ownMessage : Message :=
  { id := 7, conversation := 10, sender := 1, content := "hi",
    is_read := false, read_at := none }

/-! ## Claims -/

/-- Claim C1, counterexample: `call_accept` on the rejected call with id
1 does not fail with a domain error — it fans out `call_accepted` to the
caller's personal group and mutates the row to status accepted with
`answered_at` stamped, contradicting termination of the rejected
state. -/
theorem C1_counterexample :
    (CallConsumer.handle_call_accept [rejectedCall] (some 1) 100).1 =
      [Sent.toGroup "user_call_2" "call_accepted"] ∧
    (CallConsumer.handle_call_accept [rejectedCall] (some 1) 100).2 =
      [{ rejectedCall with status := .accepted, answered_at := some 100 }] := by
  decide

/-- Claim C1, amended: the call state machine is unguarded — for every
existing call, whatever its current status (terminal ones included),
`call_accept` succeeds: it sets the status to accepted, stamps
`answered_at`, saves the row, and fans out `call_accepted` to the
caller's personal call group; `mark_accepted`, `mark_rejected` and
`mark_ended` never consult the current status. -/
theorem C1_amended_transitions_unguarded (db : List Call) (i : Nat)
    (now : Int) (c : Call) (h : findCall db i = some c) :
    (CallConsumer.handle_call_accept db (some i) now).1 =
      [Sent.toGroup ("user_call_" ++ toString c.caller) "call_accepted"] ∧
    (CallConsumer.handle_call_accept db (some i) now).2 =
      saveCall db i (c.mark_accepted now) ∧
    (c.mark_accepted now).status = .accepted ∧
    (c.mark_accepted now).answered_at = some now ∧
    (∀ st : CallStatus,
      ({ c with status := st }).mark_accepted now = c.mark_accepted now) ∧
    (∀ st : CallStatus,
      ({ c with status := st }).mark_rejected now = c.mark_rejected now) ∧
    (∀ st : CallStatus,
      ({ c with status := st }).mark_ended now = c.mark_ended now) := by
  refine ⟨?_, ?_, rfl, rfl, fun st => rfl, fun st => rfl, fun st => ?_⟩
  · simp [CallConsumer.handle_call_accept, CallConsumer.accept_call, h,
      Call.mark_accepted]
  · simp [CallConsumer.handle_call_accept, CallConsumer.accept_call, h]
  · simp [Call.mark_ended]

/-- Claim C1, witness: the amended theorem applied to the singleton
database holding the rejected call. -/
theorem C1_witness :
    (CallConsumer.handle_call_accept [rejectedCall] (some 1) 50).2 =
      saveCall [rejectedCall] 1 (rejectedCall.mark_accepted 50) :=
  (C1_amended_transitions_unguarded [rejectedCall] 1 50 rejectedCall
    (by decide)).2.1

/-- Claim C2, counterexample: `call_reject` naming the nonexistent call
id 5 sends nothing at all back to the originating connection — in
particular no error event — contradicting the claimed uniform error
reply. -/
theorem C2_counterexample :
    CallConsumer.handle_call_reject [] (some 5) 0 = ([], []) := by
  decide

/-- Claim C2, amended: on `call_accept` with an unknown call id the
originating connection receives an error event and nothing is fanned
out; on `call_reject` and `call_end` with an unknown call id nothing is
emitted at all — no error event and no fan-out; in all three cases the
database is unchanged and the connection stays open. -/
theorem C2_amended_unknown_call_id (db : List Call) (i : Nat) (now : Int)
    (cid : String) (h : findCall db i = none) :
    CallConsumer.handle_call_accept db (some i) now =
      ([Sent.toSelf "error"], db) ∧
    CallConsumer.handle_call_reject db (some i) now = ([], db) ∧
    CallConsumer.handle_call_end db (some i) cid now = ([], db) := by
  refine ⟨?_, ?_, ?_⟩ <;>
    simp [CallConsumer.handle_call_accept, CallConsumer.handle_call_reject,
      CallConsumer.handle_call_end, CallConsumer.accept_call,
      CallConsumer.reject_call, CallConsumer.end_call, h]

/-- Claim C2, witness: the amended theorem applied to the empty call
database and call id 5. -/
theorem C2_witness :
    CallConsumer.handle_call_accept [] (some 5) 0 =
      ([Sent.toSelf "error"], []) :=
  (C2_amended_unknown_call_id [] 5 0 "10" rfl).1

/-- Claim C3, counterexample: a `mark_read` event naming the
nonexistent message id 7 sends no error event and nevertheless fans a
`message_read` event out to the conversation group, contradicting both
halves of the claim. -/
theorem C3_counterexample :
    ChatConsumer.receive_mark_read [] 1 "chat_10" (some 7) 0 =
      ([Sent.toGroup "chat_10" "message_read"], []) := by
  decide

/-- Claim C3, amended: whenever a `mark_read` event carries a
`message_id`, a `message_read` event is fanned out to the conversation
group unconditionally — whether or not the message exists, is the
caller's own, or was already read — and no error event is ever sent;
the read flag itself is mutated only when the message exists and its
sender differs from the caller. -/
theorem C3_amended_unconditional_fanout (db : List Message) (caller : Nat)
    (g : String) (i : Nat) (now : Int) :
    (ChatConsumer.receive_mark_read db caller g (some i) now).1 =
      [Sent.toGroup g "message_read"] ∧
    (findMessage db i = none →
      (ChatConsumer.receive_mark_read db caller g (some i) now).2 = db) ∧
    (∀ m, findMessage db i = some m → m.sender = caller →
      (ChatConsumer.receive_mark_read db caller g (some i) now).2 = db) := by
  refine ⟨rfl, fun h => ?_, fun m h hs => ?_⟩
  · simp [ChatConsumer.receive_mark_read, ChatConsumer.mark_message_read, h]
  · simp [ChatConsumer.receive_mark_read, ChatConsumer.mark_message_read, h, hs]

/-- Claim C3, witness: the amended theorem applied to the empty message
database: the fan-out happens and the database is unchanged. -/
theorem C3_witness :
    (ChatConsumer.receive_mark_read [] 1 "chat_10" (some 7) 0).1 =
      [Sent.toGroup "chat_10" "message_read"] ∧
    (ChatConsumer.receive_mark_read [] 1 "chat_10" (some 7) 0).2 = [] :=
  ⟨(C3_amended_unconditional_fanout [] 1 "chat_10" 7 0).1,
   (C3_amended_unconditional_fanout [] 1 "chat_10" 7 0).2.1 rfl⟩

/-- Claim C4, confirmed: the credential is extracted by trying the
query-string parameter, then the Bearer header, then the
`access_token` cookie; the first source yielding a non-empty value wins
and later sources are never consulted (changing them cannot change the
result); when the extraction is empty the identity is anonymous, and
otherwise the identity is whatever the validation function resolves —
anonymous exactly when validation fails.  `authenticate` is a total
function, so no exception is ever raised. -/
theorem C4_token_source_order (validate : String → Option Nat)
    (s : JWTAuthMiddleware.Scope) :
    (∀ t, JWTAuthMiddleware.getQueryToken s.query_params = some t →
      ∀ a c, JWTAuthMiddleware.extract_token ⟨s.query_params, a, c⟩ = t) ∧
    (JWTAuthMiddleware.getQueryToken s.query_params = none →
      ∀ t, JWTAuthMiddleware.bearerToken s.authorization = some t →
        t ≠ "" → ∀ c,
          JWTAuthMiddleware.extract_token ⟨s.query_params, s.authorization, c⟩ = t) ∧
    (JWTAuthMiddleware.getQueryToken s.query_params = none →
      (JWTAuthMiddleware.bearerToken s.authorization = none ∨
        JWTAuthMiddleware.bearerToken s.authorization = some "") →
      JWTAuthMiddleware.extract_token s =
        (JWTAuthMiddleware.cookieGet
          (JWTAuthMiddleware.parseCookies s.cookie) "access_token").getD "") ∧
    (JWTAuthMiddleware.extract_token s = "" →
      JWTAuthMiddleware.authenticate validate s = none) ∧
    (JWTAuthMiddleware.extract_token s ≠ "" →
      JWTAuthMiddleware.authenticate validate s =
        validate (JWTAuthMiddleware.extract_token s)) := by
  refine ⟨?_, ?_, ?_, ?_, ?_⟩
  · intro t ht a c
    have htne : t ≠ "" := by
      have h2 := ht
      rw [JWTAuthMiddleware.getQueryToken] at h2
      rcases Option.map_eq_some'.mp h2 with ⟨kv, hfind, hkv⟩
      have hp := List.find?_some hfind
      simp only [Bool.and_eq_true, bne_iff_ne, ne_eq, beq_iff_eq] at hp
      exact hkv ▸ hp.2
    unfold JWTAuthMiddleware.extract_token
    rw [show (⟨s.query_params, a, c⟩ : JWTAuthMiddleware.Scope).query_params =
          s.query_params from rfl, ht]
    simp [htne]
  · intro hq t hb ht c
    unfold JWTAuthMiddleware.extract_token
    rw [show (⟨s.query_params, s.authorization, c⟩ :
          JWTAuthMiddleware.Scope).query_params = s.query_params from rfl,
      show (⟨s.query_params, s.authorization, c⟩ :
          JWTAuthMiddleware.Scope).authorization = s.authorization from rfl,
      hq, hb]
    simp [ht]
  · intro hq hb
    unfold JWTAuthMiddleware.extract_token
    rcases hb with hb | hb <;> rw [hq, hb] <;>
      rcases JWTAuthMiddleware.cookieGet
          (JWTAuthMiddleware.parseCookies s.cookie) "access_token"
        with _ | v <;> simp
  · intro h
    unfold JWTAuthMiddleware.authenticate
    rw [h]
    simp
  · intro h
    unfold JWTAuthMiddleware.authenticate
    simp [h]

/-- Claim C4, witness: with a `token` query parameter present, the
Bearer header and the cookie are ignored and the query value is
extracted. -/
theorem C4_witness :
    JWTAuthMiddleware.extract_token
      ⟨[("token", "abc")], "Bearer zzz", "access_token=qqq"⟩ = "abc" :=
  (C4_token_source_order (fun _ => none) ⟨[("token", "abc")], "", ""⟩).1
    "abc" rfl "Bearer zzz" "access_token=qqq"

/-- Claim C5, confirmed: `mark_as_read` is idempotent — applying it a
second time changes nothing, the flag is set after the first
application, and in particular `read_at` keeps the value stamped by the
first application. -/
theorem C5_mark_as_read_idempotent (m : Message) (t1 t2 : Int) :
    (m.mark_as_read t1).mark_as_read t2 = m.mark_as_read t1 ∧
    (m.mark_as_read t1).is_read = true ∧
    ((m.mark_as_read t1).mark_as_read t2).read_at = (m.mark_as_read t1).read_at := by
  by_cases h : m.is_read <;> simp [Message.mark_as_read, h]

/-- Claim C6, confirmed: when the referenced message's sender is the
caller, `mark_message_read` (and the whole `mark_read` receive branch)
leaves the message database unchanged — a sender can never mark their
own message as read. -/
theorem C6_sender_cannot_mark_own (db : List Message) (caller : Nat)
    (g : String) (i : Nat) (now : Int) (m : Message)
    (hm : findMessage db i = some m) (hs : m.sender = caller) :
    ChatConsumer.mark_message_read db caller i now = db ∧
    (ChatConsumer.receive_mark_read db caller g (some i) now).2 = db := by
  constructor <;>
    simp [ChatConsumer.mark_message_read, ChatConsumer.receive_mark_read,
      hm, hs]

/-- Claim C6, witness: user 1 attempting to mark their own message 7 as
read leaves the database unchanged. -/
theorem C6_witness :
    ChatConsumer.mark_message_read [ownMessage] 1 7 0 = [ownMessage] :=
  (C6_sender_cannot_mark_own [ownMessage] 1 "chat_10" 7 0 ownMessage
    (by decide) rfl).1

/-- Claim C7, confirmed: an unauthenticated handshake on any of the
three endpoints — private chat, global chat, call signaling — yields
the closed outcome: not accepted, closed, no group joined, nothing sent
on the connection, and (for global chat) no `user_joined` broadcast. -/
theorem C7_unauthenticated_closed (p : Bool) (cid : String) (uid : Nat)
    (uname : String) :
    ChatConsumer.connect false p cid uid = ChatConsumer.closedResult ∧
    GlobalChatConsumer.connect false uid uname =
      (ChatConsumer.closedResult, []) ∧
    CallConsumer.connect false p cid uid = ChatConsumer.closedResult ∧
    ChatConsumer.closedResult.accepted = false ∧
    ChatConsumer.closedResult.closed = true ∧
    ChatConsumer.closedResult.groups = [] ∧
    ChatConsumer.closedResult.sent = [] := by
  simp [ChatConsumer.connect, GlobalChatConsumer.connect,
    CallConsumer.connect, ChatConsumer.closedResult]

/-- Claim C8, confirmed: fanning a typing event out to a group delivers
nothing to any member whose user identity equals the originator's, and
delivers exactly the indicator payload (originator's user id and typing
flag, plus username in the global room) to every other member — for
both the private conversation group and the global room. -/
theorem C8_typing_excludes_originator (members : List Nat) (origin : Nat)
    (t : Bool) (uname : String) :
    (∀ m e, (m, e) ∈ ChatConsumer.deliver_typing members ⟨origin, t⟩ ↔
      (m ∈ members ∧ m ≠ origin ∧ e = ⟨origin, t⟩)) ∧
    (∀ m e, (m, e) ∈ GlobalChatConsumer.deliver_typing members
        ⟨"typing_indicator", origin, uname⟩ t ↔
      (m ∈ members ∧ m ≠ origin ∧
        e = (⟨"typing_indicator", origin, uname⟩, t))) := by
  constructor
  · intro m e
    simp only [ChatConsumer.deliver_typing, List.mem_filterMap,
      ChatConsumer.typing_indicator]
    constructor
    · rintro ⟨u, hu, hmap⟩
      by_cases h : u == origin
      · simp [h] at hmap
      · simp [h] at hmap
        obtain ⟨h1, h2⟩ := hmap
        subst h1
        exact ⟨hu, by simpa using h, h2.symm⟩
    · rintro ⟨hm, hne, he⟩
      exact ⟨m, hm, by simp [hne, he]⟩
  · intro m e
    simp only [GlobalChatConsumer.deliver_typing, List.mem_filterMap,
      GlobalChatConsumer.typing_indicator]
    constructor
    · rintro ⟨u, hu, hmap⟩
      by_cases h : u == origin
      · simp [h] at hmap
      · simp [h] at hmap
        obtain ⟨h1, h2⟩ := hmap
        subst h1
        exact ⟨hu, by simpa using h, h2.symm⟩
    · rintro ⟨hm, hne, he⟩
      exact ⟨m, hm, by simp [hne, he]⟩

/-- Claim C8, witness: with members 1 and 2 and originator 1, member 2
receives the indicator while the originator does not. -/
theorem C8_witness :
    ((2, (⟨1, true⟩ : TypingEvent)) ∈
      ChatConsumer.deliver_typing [1, 2] ⟨1, true⟩) ∧
    ¬ ∃ e, (1, e) ∈ ChatConsumer.deliver_typing [1, 2] ⟨1, true⟩ :=
  ⟨((C8_typing_excludes_originator [1, 2] 1 true "a").1 2 ⟨1, true⟩).mpr
      ⟨by decide, by decide, rfl⟩,
   fun ⟨e, he⟩ =>
    (((C8_typing_excludes_originator [1, 2] 1 true "a").1 1 e).mp he).2.1 rfl⟩

/-- Claim C9, confirmed: a successful `call_end` sets the status to
ended, stamps `ended_at`, recomputes `duration` as end time minus
answer time when the call was answered and leaves it at its creation
default 0 when it never was, and fans `call_ended` out to the whole
conversation call group `call_<conversation_id>` rather than one
party's personal group. -/
theorem C9_call_end_semantics (db : List Call) (i : Nat) (now : Int)
    (cid : String) (c : Call) (h : findCall db i = some c) :
    (c.mark_ended now).status = .ended ∧
    (c.mark_ended now).ended_at = some now ∧
    (∀ a, c.answered_at = some a → (c.mark_ended now).duration = now - a) ∧
    (c.answered_at = none → (c.mark_ended now).duration = c.duration) ∧
    (∀ n conv ca re ct st,
      (CallConsumer.create_call n conv ca re ct st).duration = 0 ∧
      (CallConsumer.create_call n conv ca re ct st).answered_at = none) ∧
    (CallConsumer.handle_call_end db (some i) cid now).1 =
      [Sent.toGroup ("call_" ++ cid) "call_ended"] ∧
    (CallConsumer.handle_call_end db (some i) cid now).2 =
      saveCall db i (c.mark_ended now) := by
  refine ⟨?_, ?_, ?_, ?_, fun n conv ca re ct st => ⟨rfl, rfl⟩, ?_, ?_⟩
  · rcases hc : c.answered_at with _ | a <;> simp [Call.mark_ended, hc]
  · rcases hc : c.answered_at with _ | a <;> simp [Call.mark_ended, hc]
  · intro a ha
    simp [Call.mark_ended, ha]
  · intro ha
    simp [Call.mark_ended, ha]
  · simp [CallConsumer.handle_call_end, CallConsumer.end_call, h]
  · simp [CallConsumer.handle_call_end, CallConsumer.end_call, h]

/-- Claim C9, witness: ending the accepted call answered at second 10
at second 40 yields duration 30 and a `call_ended` fan-out to the
conversation call group. -/
theorem C9_witness :
    (answeredCall.mark_ended 40).duration = 40 - 10 ∧
    (CallConsumer.handle_call_end [answeredCall] (some 4) "10" 40).1 =
      [Sent.toGroup ("call_" ++ "10") "call_ended"] :=
  ⟨(C9_call_end_semantics [answeredCall] 4 40 "10" answeredCall
      (by decide)).2.2.1 10 rfl,
   (C9_call_end_semantics [answeredCall] 4 40 "10" answeredCall
      (by decide)).2.2.2.2.2.1⟩

/-- Claim C10, confirmed: an accepted global-chat connection broadcasts
a `user_joined` event carrying the user's id and name, the disconnect
of an authenticated connection broadcasts `user_left`, each handler
suppresses delivery exactly for members whose user id equals the
joiner's or leaver's, and neither event type appears in the spec's §6
outbound envelope. -/
theorem C10_join_leave_broadcasts (uid : Nat) (uname : String) :
    (GlobalChatConsumer.connect true uid uname).2 =
      [{ etype := "user_joined", user_id := uid, username := uname }] ∧
    (GlobalChatConsumer.connect true uid uname).1.accepted = true ∧
    GlobalChatConsumer.disconnect true uid uname =
      [{ etype := "user_left", user_id := uid, username := uname }] ∧
    (∀ e : UserEvent, GlobalChatConsumer.user_joined e.user_id e = none) ∧
    (∀ s e, s ≠ UserEvent.user_id e → GlobalChatConsumer.user_joined s e = some e) ∧
    (∀ e : UserEvent, GlobalChatConsumer.user_left e.user_id e = none) ∧
    (∀ s e, s ≠ UserEvent.user_id e → GlobalChatConsumer.user_left s e = some e) ∧
    "user_joined" ∉ specOutboundEventTypes ∧
    "user_left" ∉ specOutboundEventTypes := by
  refine ⟨rfl, rfl, rfl, fun e => ?_, fun s e h => ?_, fun e => ?_,
    fun s e h => ?_, by decide, by decide⟩
  · simp [GlobalChatConsumer.user_joined]
  · simp [GlobalChatConsumer.user_joined, h]
  · simp [GlobalChatConsumer.user_left]
  · simp [GlobalChatConsumer.user_left, h]

/-- Claim C10, witness: user 1 joining broadcasts `user_joined`, which
member 2 receives and user 1's own connections do not. -/
theorem C10_witness :
    (GlobalChatConsumer.connect true 1 "alice").2 =
      [{ etype := "user_joined", user_id := 1, username := "alice" }] ∧
    GlobalChatConsumer.user_joined 2
        { etype := "user_joined", user_id := 1, username := "alice" } =
      some { etype := "user_joined", user_id := 1, username := "alice" } :=
  ⟨(C10_join_leave_broadcasts 1 "alice").1,
   (C10_join_leave_broadcasts 1 "alice").2.2.2.2.1 2
     { etype := "user_joined", user_id := 1, username := "alice" } (by decide)⟩

end GCS
